import Mathlib

/-
  Shallow embedding of boxpy (box.py): configuration resolution, cloud
  config merging, port allocation, and lifecycle orchestration logic.
-/

namespace Boxpy

/-! ## Python string truthiness and layered attribute resolution
    (Config.__init__, box.py lines 369-435) -/

/-- Python truthiness of an optional string attribute value: None and the
empty string are falsy. -/
def pyTruthy : Option String → Bool
  | none => false
  | some s => !(s == "")

/-- One resolution layer in Config.__init__: a layer only overrides the
current value when its value is truthy (the code skips falsy values with
a continue). -/
def applyLayer (cur : String) (v : Option String) : String :=
  match v with
  | none => cur
  | some s => if s == "" then cur else s

/-- Resolution of one boxpy_data-backed attribute (such as cpus or
disk_size) following the statement order of Config.__init__:
1. _set_defaults stores the compiled-in default (USER_DATA boxpy_data);
2. truthy values found in the VM metadata (AttributeRecord) override;
3. _combine_cc: when a user cloud-config file is present, the defaults
   are re-merged with the user document, so the merged boxpy_data value
   is the user value when set and truthy, and the compiled default
   otherwise; any truthy merged value overrides the current one;
4. truthy command-line values override last.
userFile is none when no user file is in play, some uv when a file is
present and uv is the optional value the file sets for this key. -/
def resolve_boxpy_attr (dflt : String) (attrRec : Option String)
    (userFile : Option (Option String)) (cli : Option String) : String :=
  let v2 := applyLayer dflt attrRec
  let v3 :=
    match userFile with
    | none => v2
    | some uv => applyLayer v2 (some (applyLayer dflt uv))
  applyLayer v3 cli

/-! ## Size normalization (convert_to_mega, box.py lines 214-238) -/

/-- Python str.lower on a string (character-wise, as for the ASCII size
strings handled here). -/
def pyLower (s : String) : String :=
  String.mk (s.toList.map Char.toLower)

/-- Python str.endswith. -/
def pyEndsWith (s suffixStr : String) : Bool :=
  s.toList.drop (s.toList.length - suffixStr.toList.length) == suffixStr.toList

/-- Python slicing s[:-k] for k positive. -/
def pyDropLast (s : String) (k : Nat) : String :=
  String.mk (s.toList.take (s.toList.length - k))

/-- Python str.isnumeric, restricted to ASCII digit strings (the size
strings handled by boxpy come from CLI flags and YAML scalars). -/
def pyIsNumeric (s : String) : Bool :=
  !s.toList.isEmpty && s.toList.all Char.isDigit

/-- Python int() on an ASCII digit string. -/
def pyInt (s : String) : Nat :=
  s.toList.foldl (fun a c => a * 10 + (c.toNat - 48)) 0

/-- convert_to_mega from box.py: a chain of five independent if
statements assigning to result; a later matching condition wins. -/
def convert_to_mega (size : String) : Option String :=
  let r0 : Option String := none
  let r1 := if pyIsNumeric size then some size else r0
  let r2 := if pyEndsWith (pyLower size) "m" && pyIsNumeric (pyDropLast size 1)
            then some (pyDropLast size 1) else r1
  let r3 := if pyEndsWith (pyLower size) "g" && pyIsNumeric (pyDropLast size 1)
            then some (toString (pyInt (pyDropLast size 1) * 1024)) else r2
  let r4 := if pyEndsWith (pyLower size) "mb" && pyIsNumeric (pyDropLast size 2)
            then some (pyDropLast size 2) else r3
  let r5 := if pyEndsWith (pyLower size) "gb" && pyIsNumeric (pyDropLast size 2)
            then some (toString (pyInt (pyDropLast size 2) * 1024)) else r4
  r5

/-- Spec-side shape of a valid size string: a plain number, or a number
followed by an M/G/MB/GB suffix matched case-insensitively. -/
def isValidSizeSpec (s : String) : Bool :=
  pyIsNumeric s
  || ((pyEndsWith (pyLower s) "m" || pyEndsWith (pyLower s) "g")
        && pyIsNumeric (pyDropLast s 1))
  || ((pyEndsWith (pyLower s) "mb" || pyEndsWith (pyLower s) "gb")
        && pyIsNumeric (pyDropLast s 2))

/-! ## Hostname derivation (Config._normalize_name, box.py lines 523-527) -/

/-- Keep only characters below codepoint 128, as the ascii codec with
errors ignore does. -/
def isAsciiChar (c : Char) : Bool :=
  c.toNat < 128

/-- Keep only alphanumeric characters and the dash. -/
def keepChar (c : Char) : Bool :=
  c.isAlphanum || c == '-'

/-- Config._normalize_name: replace spaces with dashes, drop non-ASCII
characters, then retain only alphanumerics and dashes. There is no
lower-casing step in the source. -/
def normalize_name (name : String) : String :=
  let replaced := name.toList.map (fun c => if c == ' ' then '-' else c)
  let ascii := replaced.filter isAsciiChar
  String.mk (ascii.filter keepChar)

/-- The final hostname assignment in Config.__init__:
self.hostname = self.hostname or self._normalize_name(). -/
def derive_hostname (hostname : Option String) (name : String) : String :=
  match hostname with
  | none => normalize_name name
  | some h => if h == "" then normalize_name name else h

/-- Modelled from the amended spec words: the derived hostname is the
name with spaces replaced by dashes and only ASCII alphanumerics and
dashes retained (no lower-casing). -/
def hostnameSpec (name : String) : String :=
  String.mk ((name.toList.map (fun c => if c == ' ' then '-' else c)).filter
    (fun c => isAsciiChar c && keepChar c))

/-! ## YAML document model and deep merge
    (Config._update, box.py lines 579-585) -/

/-- A YAML value as loaded by yaml.safe_load: scalar, sequence or
mapping (mappings as ordered association lists, like Python dicts). -/
inductive YVal where
  | int : Int → YVal
  | str : String → YVal
  | bool : Bool → YVal
  | list : List YVal → YVal
  | map : List (String × YVal) → YVal

/-- Dict lookup. -/
def lookupK : List (String × YVal) → String → Option YVal
  | [], _ => none
  | (k, v) :: rest, key => if k == key then some v else lookupK rest key

/-- Dict item assignment: replace in place, or append a new entry. -/
def setKey : List (String × YVal) → String → YVal → List (String × YVal)
  | [], key, v => [(key, v)]
  | (k, w) :: rest, key, v =>
    if k == key then (k, v) :: rest else (k, w) :: setKey rest key v

/-- Dict del statement. -/
def delKey : List (String × YVal) → String → List (String × YVal)
  | [], _ => []
  | (k, v) :: rest, key => if k == key then rest else (k, v) :: delKey rest key

/-- Is the value a mapping (isinstance(val, collections.abc.Mapping)). -/
def isMapY : YVal → Bool
  | YVal.map _ => true
  | _ => false

/-- Python truthiness of a YAML value. -/
def pyTruthyY : YVal → Bool
  | YVal.int n => !(n == 0)
  | YVal.str s => !(s == "")
  | YVal.bool b => b
  | YVal.list l => !l.isEmpty
  | YVal.map m => !m.isEmpty

/-- Config._update(source, update), iterating over the items of update:
when the new value is a mapping, recurse with source.get(key, a fresh
empty dict); otherwise assign the new value. Python raises a TypeError
or AttributeError when an item is assigned on, or fetched from, a
non-dict source; this is modelled by returning none. The second
argument is the item list of the update mapping. -/
def updateMap (src : YVal) (upd : List (String × YVal)) : Option YVal :=
  match upd with
  | [] => some src
  | (k, v) :: rest =>
    match v with
    | YVal.map m =>
      match src with
      | YVal.map sm =>
        match updateMap ((lookupK sm k).getD (YVal.map [])) m with
        | some merged => updateMap (YVal.map (setKey sm k merged)) rest
        | none => none
      | _ => none
    | _ =>
      match src with
      | YVal.map sm => updateMap (YVal.map (setKey sm k v)) rest
      | _ => none

/-! ## The compiled-in cloud config skeleton and control block handling
    (USER_DATA, Config._set_defaults and Config._combine_cc,
     box.py lines 33-52, 514-521, 529-565) -/

/-- Top-level entries of yaml.safe_load(USER_DATA), the compiled-in
cloud config skeleton. It contains the boxpy_data control block. -/
def defaultConfEntries : List (String × YVal) :=
  [("users", YVal.list
      [YVal.str "default",
       YVal.map
         [("name", YVal.str "${username}"),
          ("ssh_authorized_keys", YVal.list [YVal.str "$ssh_key"]),
          ("chpasswd", YVal.map [("expire", YVal.bool false)]),
          ("gecos", YVal.str "${realname}"),
          ("sudo", YVal.str "ALL=(ALL) NOPASSWD:ALL"),
          ("groups", YVal.str "users, admin")]]),
   ("no_ssh_fingerprints", YVal.bool true),
   ("ssh", YVal.map [("emit_keys_to_console", YVal.bool false)]),
   ("boxpy_data", YVal.map
      [("cpus", YVal.int 1),
       ("disk_size", YVal.int 6144),
       ("key", YVal.str "~/.ssh/id_rsa"),
       ("memory", YVal.int 1024)])]

/-- The compiled-in cloud config document. -/
def defaultConf : YVal :=
  YVal.map defaultConfEntries

/-- Does the document carry a given top-level key. -/
def hasKeyY (conf : YVal) (key : String) : Bool :=
  match conf with
  | YVal.map m => (lookupK m key).isSome
  | _ => false

/-- The tail of Config._combine_cc: when the merged document has a
truthy boxpy_data entry, delete it; otherwise leave the document as is. -/
def stripControlBlock (conf : YVal) : YVal :=
  match conf with
  | YVal.map m =>
    match lookupK m "boxpy_data" with
    | some bv => if pyTruthyY bv then YVal.map (delKey m "boxpy_data") else YVal.map m
    | none => YVal.map m
  | other => other

/-- The value of self conf after _set_defaults and _combine_cc, as a
function of the user cloud config document: none models the paths where
_combine_cc returns early (no user_data recorded, or the file does not
exist), in which case self conf stays the defaults skeleton stored by
_set_defaults, boxpy_data included. With a user mapping, the defaults
are deep-merged with it and the control block is stripped; a merge
error (TypeError) or a non-mapping user document propagates as none. -/
def combine_cc (userConf : Option YVal) : Option YVal :=
  match userConf with
  | none => some defaultConf
  | some u =>
    match u with
    | YVal.map um =>
      match updateMap defaultConf um with
      | some conf => some (stripControlBlock conf)
      | none => none
    | _ => none

/-! ## Rebuild disk size (vmrebuild, box.py lines 1413-1449) -/

/-- The disk-size decision in vmrebuild: the measured size of the old
boot disk (vbox.get_media_size) is used only when the resolved
conf.disk_size is falsy. -/
def rebuild_disk_size (resolved_disk_size : String) (measured : String) : String :=
  if resolved_disk_size == "" then measured else resolved_disk_size

/-! ## Port allocation
    (VBoxManage._find_unused_port and _get_defined_ports,
     box.py lines 859-904) -/

/-- A Python value as it occurs in the port bookkeeping: the random
draw is an int, while the registered host ports read from the VirtualBox
XML attributes are strings. -/
inductive PyVal where
  | int : Int → PyVal
  | str : String → PyVal

/-- Python equality between these values: an int never equals a str. -/
def pyEq : PyVal → PyVal → Bool
  | PyVal.int a, PyVal.int b => a == b
  | PyVal.str a, PyVal.str b => a == b
  | _, _ => false

/-- Python membership test (the in operator) on a list of values. -/
def pyIn (v : PyVal) (l : List PyVal) : Bool :=
  l.any (fun w => pyEq v w)

/-- VBoxManage._find_unused_port: draw random ports from 2000-2999 and
return the first draw that is not in used_ports.values(). The stream of
random draws is passed in explicitly; usedPorts holds the registered
host-forward ports of the other VMs, as the string values the code
reads from the XML. -/
def find_unused_port (draws : List Nat) (usedPorts : List PyVal) : Option Nat :=
  match draws with
  | [] => none
  | p :: rest =>
    if pyIn (PyVal.int (Int.ofNat p)) usedPorts then
      find_unused_port rest usedPorts
    else
      some p

/-! ## Create rollback on interrupt
    (vmcreate except KeyboardInterrupt, box.py lines 1286-1291, and
     VBoxManage.destroy, box.py lines 719-735) -/

/-- The external state vmcreate manipulates once the VM is powered on:
the VM registration and run state on the VirtualBox side, and the two
temporary directories held by the IsoImage and Image objects. -/
structure CreateState where
  vmRegistered : Bool
  vmRunning : Bool
  isoTempPresent : Bool
  imageTempPresent : Bool

/-- IsoImage.cleanup: remove the temporary ISO build directory. -/
def iso_cleanup (s : CreateState) : CreateState :=
  { s with isoTempPresent := false }

/-- Image.cleanup: remove the temporary image build directory. -/
def image_cleanup (s : CreateState) : CreateState :=
  { s with imageTempPresent := false }

/-- VBoxManage.destroy on the driver success path: error 4 when the VM
does not exist; otherwise power off (best effort), detach the config
drive, and unregister the VM with delete, removing it entirely. -/
def vbox_destroy (s : CreateState) : CreateState × Option Nat :=
  if s.vmRegistered then
    ({ s with vmRunning := false, vmRegistered := false }, none)
  else
    (s, some 4)

/-- The KeyboardInterrupt handler of the bootstrap-await loop in
vmcreate: iso.cleanup(); image.cleanup(); vbox.destroy(); return 1. -/
def vmcreate_on_interrupt (s : CreateState) : CreateState × Nat :=
  let s1 := iso_cleanup s
  let s2 := image_cleanup s1
  let s3 := (vbox_destroy s2).1
  (s3, 1)

/-! ## start and stop
    (_set_vmstate, vmstart, vmstop, box.py lines 1483-1509) -/

/-- The return value of _set_vmstate: error 20 when the VM does not
exist; None (no error) when the VM is already in the requested state or
after issuing the power-on or acpi power-button call. -/
def set_vmstate (vmExists vmRunning : Bool) (target : String) : Option Nat :=
  if !vmExists then some 20
  else if vmRunning && target == "start" then none
  else if !vmRunning && target == "stop" then none
  else none

/-- vmstart calls _set_vmstate but does not return its result, so it
always returns None. -/
def vmstart (vmExists vmRunning : Bool) : Option Nat :=
  let _ := set_vmstate vmExists vmRunning "start"
  none

/-- vmstop calls _set_vmstate but does not return its result, so it
always returns None. -/
def vmstop (vmExists vmRunning : Bool) : Option Nat :=
  let _ := set_vmstate vmExists vmRunning "stop"
  none

/-- sys.exit(main()): a None return from the dispatched command means
exit status 0; an integer return is the exit status. -/
def sys_exit_code : Option Nat → Nat
  | none => 0
  | some n => n

/-! ## destroy of a list of names (vmdestroy, box.py lines 1312-1327) -/

/-- vmdestroy over the list of names given on the command line, with
the registry of existing VMs as a list of names and the driver
succeeding: each name is checked for existence and, if present,
destroyed (removed from the registry); a missing name aborts the loop
with error 18 at that point. The result is the final registry and the
exit code. -/
def destroy_names (registry : List String) (names : List String) :
    List String × Nat :=
  match names with
  | [] => (registry, 0)
  | n :: rest =>
    if n ∈ registry then destroy_names (registry.erase n) rest
    else (registry, 18)

/-- Destroying a list of names that all exist along the way: the
registry left after erasing each of them in order, or none when one of
them is missing. -/
def destroy_all_found : List String → List String → Option (List String)
  | reg, [] => some reg
  | reg, n :: rest =>
    if n ∈ reg then destroy_all_found (reg.erase n) rest else none

/-! ## Helper lemmas -/

lemma applyLayer_truthy (cur s : String) (h : s ≠ "") :
    applyLayer cur (some s) = s := by
  simp [applyLayer, h]

lemma applyLayer_untruthy (cur : String) (c : Option String)
    (h : pyTruthy c = false) : applyLayer cur c = cur := by
  cases c with
  | none => rfl
  | some s =>
    simp only [pyTruthy, Bool.not_eq_false'] at h
    simp [applyLayer, h]

lemma filter_filter_chars (l : List Char) :
    (l.filter isAsciiChar).filter keepChar
      = l.filter (fun c => isAsciiChar c && keepChar c) := by
  induction l with
  | nil => rfl
  | cons c t ih =>
    cases h1 : isAsciiChar c <;> cases h2 : keepChar c <;>
      simp [List.filter_cons, h1, h2, ih]

/-! ## Claim theorems -/

/-- C1 (amended): a truthy CLI value always wins; with the CLI flag
unset, a truthy value set by the user cloud-config control block wins;
with no user file in play, a truthy AttributeRecord value wins, and
otherwise the compiled-in default stands. When a user file is present
but leaves the key unset, the merged control block re-applies the
compiled-in default over any AttributeRecord value. -/
theorem config_precedence (d : String) (a : Option String)
    (u : Option (Option String)) (c : Option String) :
    (∀ s, c = some s → s ≠ "" → resolve_boxpy_attr d a u c = s)
    ∧ (pyTruthy c = false → ∀ s, u = some (some s) → s ≠ "" →
        resolve_boxpy_attr d a u c = s)
    ∧ (pyTruthy c = false → u = none → ∀ s, a = some s → s ≠ "" →
        resolve_boxpy_attr d a u c = s)
    ∧ (pyTruthy c = false → u = none → pyTruthy a = false →
        resolve_boxpy_attr d a u c = d)
    ∧ (pyTruthy c = false → u = some none → d ≠ "" →
        resolve_boxpy_attr d a u c = d) := by
  refine ⟨?_, ?_, ?_, ?_, ?_⟩
  · rintro s rfl hs
    simp only [resolve_boxpy_attr]
    exact applyLayer_truthy _ s hs
  · rintro hc s rfl hs
    simp only [resolve_boxpy_attr]
    rw [applyLayer_truthy d s hs, applyLayer_truthy _ s hs]
    exact applyLayer_untruthy s c hc
  · rintro hc rfl s rfl hs
    simp only [resolve_boxpy_attr]
    rw [applyLayer_truthy d s hs]
    exact applyLayer_untruthy s c hc
  · rintro hc rfl ha
    simp only [resolve_boxpy_attr]
    rw [applyLayer_untruthy d a ha]
    exact applyLayer_untruthy d c hc
  · rintro hc rfl hd
    simp only [resolve_boxpy_attr]
    rw [applyLayer_untruthy d none rfl, applyLayer_truthy _ d hd]
    exact applyLayer_untruthy d c hc

/-- Witness for config_precedence: default 1, AttributeRecord 2, user
file control block 4, CLI unset resolves to the user file value 4. -/
theorem config_precedence_witness :
    resolve_boxpy_attr "1" (some "2") (some (some "4")) none = "4" :=
  (config_precedence "1" (some "2") (some (some "4")) none).2.1 rfl "4" rfl
    (by decide)

/-- C1 counterexample: with cpus set to 1 in the defaults, 2 in the
AttributeRecord, 4 in the user file control block and the CLI flag
unset, the code resolves to 4 (the user file value), not to 2 (the
AttributeRecord value the claim names). -/
theorem config_precedence_counterexample :
    resolve_boxpy_attr "1" (some "2") (some (some "4")) none = "4"
    ∧ resolve_boxpy_attr "1" (some "2") (some (some "4")) none ≠ "2" := by
  refine ⟨rfl, ?_⟩
  decide

/-- C3: in vmrebuild the resolved disk_size is never falsy, because
_set_defaults always fills it with the compiled-in default 6144; with
no CLI override, no stored attribute and no user file the guard on the
measured size is dead and the rebuild uses 6144, not the measured size
(10240 in the failing scenario). -/
theorem rebuild_disk_size_bug :
    (∀ measured, rebuild_disk_size (resolve_boxpy_attr "6144" none none none)
        measured = "6144")
    ∧ rebuild_disk_size (resolve_boxpy_attr "6144" none none none) "10240"
        ≠ "10240" := by
  refine ⟨fun measured => rfl, ?_⟩
  decide

/-- C8: convert_to_mega maps 512 to 512, 512M to 512, 1G to 1024 and
2GB to 2048, suffixes matched case-insensitively, and returns none on
every string that is neither a plain number nor a number with a valid
M/MB/G/GB suffix. -/
theorem convert_to_mega_spec :
    convert_to_mega "512" = some "512"
    ∧ convert_to_mega "512M" = some "512"
    ∧ convert_to_mega "1G" = some "1024"
    ∧ convert_to_mega "2GB" = some "2048"
    ∧ convert_to_mega "1gb" = some "1024"
    ∧ ∀ s, isValidSizeSpec s = false → convert_to_mega s = none := by
  refine ⟨by decide, by decide, by decide, by decide, by decide, ?_⟩
  intro s h
  unfold isValidSizeSpec at h
  unfold convert_to_mega
  cases hA : pyIsNumeric s <;>
    cases hM : pyEndsWith (pyLower s) "m" <;>
      cases hG : pyEndsWith (pyLower s) "g" <;>
        cases hMB : pyEndsWith (pyLower s) "mb" <;>
          cases hGB : pyEndsWith (pyLower s) "gb" <;>
            cases hN1 : pyIsNumeric (pyDropLast s 1) <;>
              cases hN2 : pyIsNumeric (pyDropLast s 2) <;>
                simp_all

/-- Witness for convert_to_mega_spec at the invalid input 1x. -/
theorem convert_to_mega_spec_witness :
    isValidSizeSpec "1x" = false ∧ convert_to_mega "1x" = none :=
  ⟨by decide, convert_to_mega_spec.2.2.2.2.2 "1x" (by decide)⟩

/-- C9 (amended): with the hostname unset, the derived hostname is the
VM name with spaces replaced by dashes, non-ASCII characters stripped
and only alphanumerics and dashes retained, with no lower-casing; in
particular the name My VM! derives to My-VM. -/
theorem hostname_derivation :
    (∀ name, derive_hostname none name = hostnameSpec name)
    ∧ derive_hostname none "My VM!" = "My-VM" := by
  refine ⟨?_, rfl⟩
  intro name
  show normalize_name name = hostnameSpec name
  unfold normalize_name hostnameSpec
  exact congrArg String.mk (filter_filter_chars _)

/-- C9 counterexample: the hostname derived from My VM! is My-VM, which
is not lower-cased, refuting the lower-casing step the claim states. -/
theorem hostname_lowercase_counterexample :
    derive_hostname none "My VM!" = "My-VM"
    ∧ pyLower (derive_hostname none "My VM!")
        ≠ derive_hostname none "My VM!" := by
  refine ⟨rfl, ?_⟩
  decide

/-- C2: code bug evidence. When no user cloud-config file is supplied,
_combine_cc returns before the control-block deletion, and the document
stored by _set_defaults still carries the boxpy_data top-level key, so
get_cloud_config emits it to the guest. Only the user-file path strips
the block, as the contrast conjuncts show. -/
theorem control_block_leak_bug :
    combine_cc none = some defaultConf
    ∧ hasKeyY defaultConf "boxpy_data" = true
    ∧ combine_cc (some (YVal.map [])) = some (stripControlBlock defaultConf)
    ∧ hasKeyY (stripControlBlock defaultConf) "boxpy_data" = false := by
  refine ⟨rfl, by decide, rfl, by decide⟩

/-- C4: code bug evidence. _find_unused_port draws the int 2500 while
another VM has the host-forward port registered as the string 2500; the
membership test compares an int with strings, never matches, and the
function returns the already-taken port. -/
theorem find_unused_port_bug :
    find_unused_port [2500] [PyVal.str "2500"] = some 2500
    ∧ pyEq (PyVal.int 2500) (PyVal.str "2500") = false
    ∧ toString (2500 : Nat) = "2500" := by
  refine ⟨by decide, rfl, by decide⟩

/-- C5: when the bootstrap-await loop of vmcreate is interrupted after
the VM is powered on, the handler releases the temporary ISO and image
directories, destroys the VM so it is no longer registered, and returns
the non-zero error code 1. -/
theorem create_interrupt_rollback (s : CreateState)
    (h : s.vmRegistered = true) :
    (vmcreate_on_interrupt s).1.vmRegistered = false
    ∧ (vmcreate_on_interrupt s).1.vmRunning = false
    ∧ (vmcreate_on_interrupt s).1.isoTempPresent = false
    ∧ (vmcreate_on_interrupt s).1.imageTempPresent = false
    ∧ (vmcreate_on_interrupt s).2 = 1
    ∧ (vmcreate_on_interrupt s).2 ≠ 0 := by
  simp [vmcreate_on_interrupt, iso_cleanup, image_cleanup, vbox_destroy, h]

/-- Witness for create_interrupt_rollback on a powered-on VM with both
temporary directories present. -/
theorem create_interrupt_rollback_witness :
    (vmcreate_on_interrupt ⟨true, true, true, true⟩).1.vmRegistered = false
    ∧ (vmcreate_on_interrupt ⟨true, true, true, true⟩).1.vmRunning = false
    ∧ (vmcreate_on_interrupt ⟨true, true, true, true⟩).1.isoTempPresent = false
    ∧ (vmcreate_on_interrupt ⟨true, true, true, true⟩).1.imageTempPresent = false
    ∧ (vmcreate_on_interrupt ⟨true, true, true, true⟩).2 = 1
    ∧ (vmcreate_on_interrupt ⟨true, true, true, true⟩).2 ≠ 0 :=
  create_interrupt_rollback ⟨true, true, true, true⟩ rfl

/-- C6: code bug evidence. _set_vmstate computes the error code 20 for
a missing VM, but vmstart and vmstop discard its return value and
return None, so main passes None to sys.exit and the process exits with
status 0 on a start or stop of a nonexistent VM. -/
theorem start_stop_exit_code_bug :
    set_vmstate false false "start" = some 20
    ∧ set_vmstate false true "stop" = some 20
    ∧ vmstart false false = none
    ∧ vmstop false true = none
    ∧ sys_exit_code (vmstart false false) = 0
    ∧ sys_exit_code (vmstop false true) = 0 :=
  ⟨rfl, rfl, rfl, rfl, rfl, rfl⟩

/-- C7 (amended): _update merges recursively when the new value under a
key is a mapping and the old value is a mapping; a new non-mapping
value fully replaces the old (scalars and lists are never
concatenated); but a new nonempty mapping over an existing non-mapping
value makes the merge fail with a TypeError instead of replacing it.
The two spec examples evaluate as stated. -/
theorem update_deep_merge :
    (updateMap (YVal.map [("a", YVal.map [("x", YVal.int 1), ("y", YVal.int 2)])])
        [("a", YVal.map [("y", YVal.int 3), ("z", YVal.int 4)])]
      = some (YVal.map
          [("a", YVal.map [("x", YVal.int 1), ("y", YVal.int 3), ("z", YVal.int 4)])]))
    ∧ (updateMap (YVal.map [("a", YVal.list [YVal.int 1, YVal.int 2])])
        [("a", YVal.list [YVal.int 3])]
      = some (YVal.map [("a", YVal.list [YVal.int 3])]))
    ∧ (∀ sm k v, isMapY v = false →
        updateMap (YVal.map sm) [(k, v)] = some (YVal.map (setKey sm k v)))
    ∧ (∀ sm k m merged,
        updateMap ((lookupK sm k).getD (YVal.map [])) m = some merged →
        updateMap (YVal.map sm) [(k, YVal.map m)]
          = some (YVal.map (setKey sm k merged))) := by
  refine ⟨rfl, rfl, ?_, ?_⟩
  · intro sm k v hv
    cases v <;> simp_all [updateMap, isMapY]
  · intro sm k m merged hm
    simp [updateMap, hm]

/-- Witness for update_deep_merge: assigning a scalar into an empty
document is a plain replacement, and merging a nested mapping into a
mapping-valued key merges recursively. -/
theorem update_deep_merge_witness :
    updateMap (YVal.map []) [("k", YVal.int 7)]
      = some (YVal.map [("k", YVal.int 7)]) :=
  update_deep_merge.2.2.1 [] "k" (YVal.int 7) rfl

/-- C7 counterexample: merging a document holding the scalar 5 at key a
with a document holding the mapping (x 1) at key a does not replace the
scalar; Config._update raises a TypeError there, modelled as none. -/
theorem update_counterexample :
    updateMap (YVal.map [("a", YVal.int 5)]) [("a", YVal.map [("x", YVal.int 1)])]
      = none
    ∧ updateMap (YVal.map [("a", YVal.int 5)]) [("a", YVal.map [("x", YVal.int 1)])]
      ≠ some (YVal.map [("a", YVal.map [("x", YVal.int 1)])]) := by
  constructor
  · rfl
  · intro h
    have h2 : (none : Option YVal)
        = some (YVal.map [("a", YVal.map [("x", YVal.int 1)])]) := h
    exact Option.noConfusion h2

/-- C10: vmdestroy walks the given names in order; when every name of a
first segment exists and is destroyed in turn, and the next name does
not exist at that point, the command stops there with error code 18,
the earlier names already removed from the registry and the remaining
names untouched. -/
theorem vmdestroy_in_order (noms : List String) :
    ∀ (reg reg2 : List String) (bad : String) (suf : List String),
      destroy_all_found reg noms = some reg2 →
      bad ∉ reg2 →
      destroy_names reg (noms ++ bad :: suf) = (reg2, 18) := by
  induction noms with
  | nil =>
    intro reg reg2 bad suf h1 h2
    simp only [destroy_all_found, Option.some.injEq] at h1
    subst h1
    simp [destroy_names, h2]
  | cons n rest ih =>
    intro reg reg2 bad suf h1 h2
    simp only [destroy_all_found] at h1
    by_cases hc : n ∈ reg
    · rw [if_pos hc] at h1
      simpa [destroy_names, hc] using ih (reg.erase n) reg2 bad suf h1 h2
    · rw [if_neg hc] at h1
      exact absurd h1 (by simp)

/-- Witness for vmdestroy_in_order: with VMs a and b registered,
destroying the list a, c, b removes a, stops at the missing c with
error 18, and leaves b registered. -/
theorem vmdestroy_in_order_witness :
    destroy_names ["a", "b"] (["a"] ++ "c" :: ["b"]) = (["b"], 18) :=
  vmdestroy_in_order ["a"] ["a", "b"] ["b"] "c" ["b"] (by decide) (by decide)

end Boxpy
